import Mathlib

/-
Verification of the StorySplicer world-simulation core.

This file is a shallow embedding of the JavaScript sources:
  src/mcp/tools/character.js  (character tool handlers)
  src/mcp/tools/item.js       (item tool handlers)
  src/mcp/handlers/triggers.js (trigger engine)
  src/mcp/handlers/auth.js    (session / ownership layer)
  src/mcp/server.js           (WebSocket tools/call dispatch)
  src/db/models/Character.js, Item.js, Area.js (persistence layer)
  src/db/migrate.js           (schema CHECK and FOREIGN KEY constraints)

Modelling conventions:
  * Database rows become Lean structures; the database becomes a WorldState
    holding lists of rows.  SQL UPDATE becomes a map over the list; the
    NUMERIC CHECK constraints ([0,100] on the four percentage columns) and
    the current_area_id / held_by_character_id FOREIGN KEYs of the schema in
    src/db/migrate.js are enforced by dbUpdateCharacter / dbUpdateItem, which
    return an error exactly when the real UPDATE would raise.  The worlds
    table itself is not modelled: no claim depends on world rows existing.
  * JavaScript numbers that hold percentages or temperatures are modelled as
    Rat; entity ids as Nat; timestamps as a Nat clock passed in by callers.
  * JavaScript truthiness tests on possibly-absent fields are modelled
    explicitly: a missing field is none, `if (x)` on a string is
    strTruthy, on a number natTruthy (0 is falsy), on an object isSome.
  * async/await and thrown Error(...) become Except String; the server's
    catch-all that turns a thrown error into an {isError:true} response is
    the Except.error case.
-/

/-! ## Data model (rows of the schema in src/db/migrate.js) -/

/-- One entry of a character's `memory` JSONB column: `{action, result, timestamp}`. -/
structure MemoryEntry where
  action : String
  result : String
  timestamp : Nat
deriving Repr, DecidableEq

/-- One entry of a character's `damage` JSONB column: `{part, type, severity}`. -/
structure DamageEntry where
  part : String
  dtype : String
  severity : Rat
deriving Repr, DecidableEq

/-- characters.character_class, CHECK (character_class IN ('story','minor')). -/
inductive CharClass where
  | story
  | minor
deriving Repr, DecidableEq

/-- A row of the `characters` table (fields the core reads or writes). -/
structure Character where
  id : Nat
  world_id : Nat
  name : String
  character_class : CharClass
  memory : List MemoryEntry
  nutrition : Rat
  hydration : Rat
  tiredness : Rat
  alertness : Rat
  damage : List DamageEntry
  current_area_id : Option Nat
  owner_id : Option String
deriving Repr, DecidableEq

/-- A row of the `items` table. -/
structure Item where
  id : Nat
  world_id : Nat
  name : String
  description : String
  properties : List (String × String)
  current_area_id : Option Nat
  held_by_character_id : Option Nat
  held_location : Option String
deriving Repr, DecidableEq

/-- Trigger condition: either the string form "<event_type>" or the object
form `{type?, keywords?, character_id?, item_id?}` (triggers.js). -/
inductive Cond where
  | str (s : String)
  | obj (type : Option String) (keywords : Option (List String))
        (character_id : Option Nat) (item_id : Option Nat)
deriving Repr, DecidableEq

/-- The `reaction.item` template embedded in an add_item reaction. -/
structure ItemTemplate where
  name : String
  description : Option String
  properties : List (String × String)
deriving Repr, DecidableEq

/-- One reaction record of a trigger (the switch cases of executeReactions).
`other` stands for any unrecognized reaction.type, which the code only warns
about. -/
inductive Reaction where
  | add_item (item : Option ItemTemplate)
  | remove_item (item_id : Option Nat)
  | add_exit (direction : Option String) (target_area_id : Option Nat)
  | remove_exit (direction : Option String)
  | modify_description (new_description : Option String) (append_description : Option String)
  | modify_temperature (temperature : Option Rat) (temperature_delta : Option Rat)
  | other (t : String)
deriving Repr, DecidableEq

/-- A trigger record `{condition, reactions, one_time}` stored in an area's
`triggers` JSONB column. -/
structure Trigger where
  condition : Cond
  reactions : List Reaction
  one_time : Bool
deriving Repr, DecidableEq

/-- A row of the `areas` table.  The JS `exits` object is an association
list from direction label to area id. -/
structure Area where
  id : Nat
  world_id : Nat
  name : String
  description : String
  temperature : Rat
  exits : List (String × Nat)
  triggers : List Trigger
deriving Repr, DecidableEq

/-- The database state: the rows of the three tables the claims touch, plus
the next SERIAL id handed out for item INSERTs. -/
structure WorldState where
  areas : List Area
  characters : List Character
  items : List Item
  nextItemId : Nat
deriving Repr, DecidableEq

/-! ## JavaScript truthiness helpers -/

/-- Truthiness of a possibly-absent JS string field (null/undefined and ""
are falsy). -/
def strTruthy : Option String → Bool
  | none => false
  | some s => s ≠ ""

/-- Truthiness of a possibly-absent JS number field holding an id
(null/undefined and 0 are falsy). -/
def natTruthy : Option Nat → Bool
  | none => false
  | some n => n ≠ 0

/-- `text.includes(needle)` on lowercased character lists. -/
def containsSub (hay needle : List Char) : Bool :=
  match hay with
  | [] => needle.isEmpty
  | _ :: t => needle.isPrefixOf hay || containsSub t needle

/-- `s.toLowerCase()` modelled on the character list (String.toLower does
not reduce in the kernel). -/
def lowerChars (s : String) : List Char := s.data.map Char.toLower

/-! ## Persistence layer (src/db/models) -/

/-- `SELECT * FROM characters WHERE id = $1` (Character.findById). -/
def findChar (st : WorldState) (id : Nat) : Option Character :=
  st.characters.find? (fun c => c.id == id)

/-- `SELECT * FROM areas WHERE id = $1` (Area.findById). -/
def findArea (st : WorldState) (id : Nat) : Option Area :=
  st.areas.find? (fun a => a.id == id)

/-- `SELECT * FROM items WHERE id = $1` (Item.findById). -/
def findItem (st : WorldState) (id : Nat) : Option Item :=
  st.items.find? (fun i => i.id == id)

/-- The columns Character.update may SET.  An outer none means the field was
not in the update (absent from the SQL SET list); for nullable columns the
inner Option is the stored value. -/
structure CharUpdate where
  nutrition : Option Rat := none
  hydration : Option Rat := none
  tiredness : Option Rat := none
  alertness : Option Rat := none
  damage : Option (List DamageEntry) := none
  memory : Option (List MemoryEntry) := none
  current_area_id : Option (Option Nat) := none
  owner_id : Option (Option String) := none
deriving Repr, DecidableEq

/-- Whether the SET list of Character.update is empty (the JS early-return
`if (updates.length === 0) return findById(id)`). -/
def CharUpdate.isEmpty (u : CharUpdate) : Bool :=
  u.nutrition.isNone && u.hydration.isNone && u.tiredness.isNone &&
  u.alertness.isNone && u.damage.isNone && u.memory.isNone &&
  u.current_area_id.isNone && u.owner_id.isNone

/-- The row produced by applying the SET list to a character row. -/
def applyCharUpdate (c : Character) (u : CharUpdate) : Character :=
  { c with
    nutrition := u.nutrition.getD c.nutrition
    hydration := u.hydration.getD c.hydration
    tiredness := u.tiredness.getD c.tiredness
    alertness := u.alertness.getD c.alertness
    damage := u.damage.getD c.damage
    memory := u.memory.getD c.memory
    current_area_id := u.current_area_id.getD c.current_area_id
    owner_id := u.owner_id.getD c.owner_id }

/-- The row-level CHECK constraints of the characters table: the four
percentage columns lie in [0, 100]. -/
def charRowOk (c : Character) : Prop :=
  0 ≤ c.nutrition ∧ c.nutrition ≤ 100 ∧
  0 ≤ c.hydration ∧ c.hydration ≤ 100 ∧
  0 ≤ c.tiredness ∧ c.tiredness ≤ 100 ∧
  0 ≤ c.alertness ∧ c.alertness ≤ 100

instance : DecidablePred charRowOk := fun c => by
  unfold charRowOk; infer_instance

/-- The FOREIGN KEY `characters.current_area_id REFERENCES areas(id)`. -/
def charFkOk (st : WorldState) (c : Character) : Bool :=
  match c.current_area_id with
  | none => true
  | some a => (findArea st a).isSome

/-- Character.update: builds the SET list from the defined fields and runs
one UPDATE.  Returns `none` when no row matched the id (rows[0] || null);
raises when the updated row violates a CHECK or FOREIGN KEY constraint. -/
def dbUpdateCharacter (st : WorldState) (id : Nat) (u : CharUpdate) :
    Except String (WorldState × Option Character) :=
  if u.isEmpty then .ok (st, findChar st id)
  else
    match findChar st id with
    | none => .ok (st, none)
    | some c =>
      let c' := applyCharUpdate c u
      let rows := st.characters.map (fun x => if x.id == id then c' else x)
      if charRowOk c' then
        if charFkOk st c' then
          .ok ({ st with characters := rows }, some c')
        else .error "foreign key violation on characters.current_area_id"
      else .error "check constraint violation on characters"

/-- The columns Item.update may SET. -/
structure ItemUpdate where
  current_area_id : Option (Option Nat) := none
  held_by_character_id : Option (Option Nat) := none
  held_location : Option (Option String) := none
deriving Repr, DecidableEq

def applyItemUpdate (i : Item) (u : ItemUpdate) : Item :=
  { i with
    current_area_id := u.current_area_id.getD i.current_area_id
    held_by_character_id := u.held_by_character_id.getD i.held_by_character_id
    held_location := u.held_location.getD i.held_location }

/-- The FOREIGN KEYs on items: current_area_id → areas, held_by_character_id
→ characters. -/
def itemFkOk (st : WorldState) (i : Item) : Bool :=
  (match i.current_area_id with
   | none => true
   | some a => (findArea st a).isSome) &&
  (match i.held_by_character_id with
   | none => true
   | some c => (findChar st c).isSome)

/-- Item.update (the SET lists used by giveToCharacter / moveToArea). -/
def dbUpdateItem (st : WorldState) (id : Nat) (u : ItemUpdate) :
    Except String (WorldState × Option Item) :=
  match findItem st id with
  | none => .ok (st, none)
  | some i =>
    let i' := applyItemUpdate i u
    let rows := st.items.map (fun x => if x.id == id then i' else x)
    if itemFkOk st i' then
      .ok ({ st with items := rows }, some i')
    else .error "foreign key violation on items"

/-- Item.giveToCharacter: clears the area, sets holder and location. -/
def itemGiveToCharacter (st : WorldState) (id characterId : Nat) (location : String) :
    Except String (WorldState × Option Item) :=
  dbUpdateItem st id
    { current_area_id := some none
      held_by_character_id := some (some characterId)
      held_location := some (some location) }

/-- Item.moveToArea: sets the area, clears both hold fields. -/
def itemMoveToArea (st : WorldState) (id areaId : Nat) :
    Except String (WorldState × Option Item) :=
  dbUpdateItem st id
    { current_area_id := some (some areaId)
      held_by_character_id := some none
      held_location := some none }

/-- Item.create run from inside the trigger engine (add_item reaction): the
INSERT always satisfies its FOREIGN KEYs there because the firing area
exists and no holder is set, so it is modelled as a plain insert. -/
def itemInsert (st : WorldState) (world_id : Nat) (name description : String)
    (properties : List (String × String)) (current_area_id : Option Nat) :
    WorldState × Item :=
  let it : Item :=
    { id := st.nextItemId, world_id := world_id, name := name,
      description := description, properties := properties,
      current_area_id := current_area_id,
      held_by_character_id := none, held_location := none }
  ({ st with items := st.items ++ [it], nextItemId := st.nextItemId + 1 }, it)

/-- Item.delete: `DELETE FROM items WHERE id = $1`. -/
def itemDelete (st : WorldState) (id : Nat) : WorldState :=
  { st with items := st.items.filter (fun i => !(i.id == id)) }

/-- The JSON columns Area.update may SET from the trigger engine. -/
structure AreaUpdate where
  description : Option String := none
  temperature : Option Rat := none
  exits : Option (List (String × Nat)) := none
  triggers : Option (List Trigger) := none
deriving Repr, DecidableEq

def AreaUpdate.isEmpty (u : AreaUpdate) : Bool :=
  u.description.isNone && u.temperature.isNone && u.exits.isNone && u.triggers.isNone

def applyAreaUpdate (a : Area) (u : AreaUpdate) : Area :=
  { a with
    description := u.description.getD a.description
    temperature := u.temperature.getD a.temperature
    exits := u.exits.getD a.exits
    triggers := u.triggers.getD a.triggers }

/-- Area.update (no constraints are relevant to the updated columns). -/
def dbUpdateArea (st : WorldState) (id : Nat) (u : AreaUpdate) : WorldState :=
  { st with areas := st.areas.map (fun a => if a.id == id then applyAreaUpdate a u else a) }

/-- The memory list Character.addMemory computes: push the entry with the
current timestamp, then drop the single oldest entry (one `shift()`) when
the cap is exceeded. -/
def memAfterAppend (mem : List MemoryEntry) (entryAction entryResult : String)
    (maxRecent now : Nat) : List MemoryEntry :=
  let m := mem ++ [{ action := entryAction, result := entryResult, timestamp := now }]
  if m.length > maxRecent then m.tail else m

/-- Character.addMemory: refetch the row, push the entry with the current
timestamp, drop the single oldest entry when the cap is exceeded, write the
memory column back.  Returns the state unchanged when the id is absent
(the JS returns null). -/
def charAddMemory (st : WorldState) (id : Nat) (entryAction entryResult : String)
    (maxRecent : Nat) (now : Nat) : Except String WorldState :=
  match findChar st id with
  | none => .ok st
  | some c =>
    (dbUpdateCharacter st id
      { memory := some (memAfterAppend c.memory entryAction entryResult maxRecent now) }).map (·.1)

/-! ## Trigger engine (src/mcp/handlers/triggers.js) -/

/-- The eventData objects the handlers pass to executeTriggers: any subset
of `{character_id, item_id, text}`. -/
structure EventData where
  character_id : Option Nat := none
  item_id : Option Nat := none
  text : Option String := none
deriving Repr, DecidableEq

/-- shouldTriggerFire, translated clause by clause.

JS: a string condition compares with the event type; an object condition
first rejects on a truthy mismatching `type`; if the event is
character_speech and `keywords` is present it immediately returns the
keyword test (`keywords.some(k => text.includes(k.toLowerCase()))` on the
lowercased text) without looking at `character_id`/`item_id`; otherwise it
rejects on a truthy `character_id` or `item_id` that differs from the
event's field, and accepts in every remaining case. -/
def shouldTriggerFire (trigger : Trigger) (eventType : String) (ev : EventData) : Bool :=
  match trigger.condition with
  | .str s => s == eventType
  | .obj ty kws cid iid =>
    if strTruthy ty && !(ty.getD "" == eventType) then false
    else if eventType == "character_speech" && kws.isSome then
      let text := lowerChars (ev.text.getD "")
      (kws.getD []).any (fun k => containsSub text (lowerChars k))
    else if natTruthy cid && !(cid == ev.character_id) then false
    else if natTruthy iid && !(iid == ev.item_id) then false
    else true

/-- The `updates` object executeReactions accumulates over the reaction
loop before the single Area.update at the end. -/
structure PendingUpd where
  exits : Option (List (String × Nat)) := none
  description : Option String := none
  temperature : Option Rat := none
deriving Repr, DecidableEq

def PendingUpd.isEmpty (u : PendingUpd) : Bool :=
  u.exits.isNone && u.description.isNone && u.temperature.isNone

/-- `exits[direction] = target` on the JS exits object. -/
def exitsSet (exits : List (String × Nat)) (dir : String) (target : Nat) :
    List (String × Nat) :=
  if exits.any (fun p => p.1 == dir) then
    exits.map (fun p => if p.1 == dir then (dir, target) else p)
  else exits ++ [(dir, target)]

/-- `delete exits[direction]` on the JS exits object. -/
def exitsErase (exits : List (String × Nat)) (dir : String) : List (String × Nat) :=
  exits.filter (fun p => !(p.1 == dir))

/-- One iteration of the executeReactions loop.  `area` is the snapshot the
function read once at its start: every exits / description / temperature
computation spreads from that snapshot, which is why later reactions of the
same list overwrite rather than compose.  add_item / remove_item act on the
item table immediately. -/
def reactionStep (areaId : Nat) (area : Area) (acc : WorldState × PendingUpd)
    (r : Reaction) : WorldState × PendingUpd :=
  let (st, upd) := acc
  match r with
  | .add_item tmpl =>
    match tmpl with
    | some t =>
      ((itemInsert st area.world_id t.name (t.description.getD "") t.properties
          (some areaId)).1, upd)
    | none => (st, upd)
  | .remove_item iid =>
    if natTruthy iid then (itemDelete st (iid.getD 0), upd) else (st, upd)
  | .add_exit dir target =>
    if strTruthy dir && natTruthy target then
      (st, { upd with exits := some (exitsSet area.exits (dir.getD "") (target.getD 0)) })
    else (st, upd)
  | .remove_exit dir =>
    if strTruthy dir then
      (st, { upd with exits := some (exitsErase area.exits (dir.getD "")) })
    else (st, upd)
  | .modify_description newD appD =>
    if strTruthy newD then (st, { upd with description := newD })
    else if strTruthy appD then
      (st, { upd with description := some (area.description ++ "\n" ++ appD.getD "") })
    else (st, upd)
  | .modify_temperature t d =>
    match t with
    | some v => (st, { upd with temperature := some v })
    | none =>
      match d with
      | some dv => (st, { upd with temperature := some (area.temperature + dv) })
      | none => (st, upd)
  | .other _ => (st, upd)

/-- executeReactions: early-return on an empty reaction list, one snapshot
read of the area, the reaction loop, then at most one Area.update with the
accumulated fields.  Inside executeTriggers the area always exists; on a
missing area the function is the identity (the JS would fault on the first
dereference, which is unreachable from executeTriggers). -/
def executeReactions (st : WorldState) (areaId : Nat) (reactions : List Reaction)
    (_ev : EventData) : WorldState :=
  if reactions.isEmpty then st
  else
    match findArea st areaId with
    | none => st
    | some area =>
      let (st', upd) := reactions.foldl (reactionStep areaId area) (st, {})
      if upd.isEmpty then st'
      else dbUpdateArea st' areaId
        { description := upd.description, temperature := upd.temperature,
          exits := upd.exits }

/-- The loop over the matched triggers in executeTriggers: run the
reactions, then, for a one-time trigger, write back `triggers.filter(t =>
t !== trigger)` computed from the ORIGINAL list `origTriggers` read before
the loop (JS closes over the array read at the top of executeTriggers).
Structural `≠` stands for the JS reference inequality; the two agree
whenever the stored list has no duplicate records. -/
def fireAll (areaId : Nat) (ev : EventData) (origTriggers : List Trigger) :
    WorldState → List Trigger → WorldState
  | st, [] => st
  | st, t :: rest =>
    let st1 := executeReactions st areaId t.reactions ev
    let st2 := if t.one_time then
        dbUpdateArea st1 areaId
          { triggers := some (origTriggers.filter (fun t2 => decide (t2 ≠ t))) }
      else st1
    fireAll areaId ev origTriggers st2 rest

/-- executeTriggers, instrumented with a ghost trace: the second component
lists the triggers whose reactions were executed during this event.  The
matched set is collected from the area's trigger list before any reaction
runs, exactly as in the source. -/
def executeTriggersT (st : WorldState) (areaId : Nat) (eventType : String)
    (ev : EventData) : WorldState × List Trigger :=
  match findArea st areaId with
  | none => (st, [])
  | some area =>
    if area.triggers.isEmpty then (st, [])
    else
      let matched := area.triggers.filter (fun t => shouldTriggerFire t eventType ev)
      (fireAll areaId ev area.triggers st matched, matched)

/-- executeTriggers as the callers see it (the trace dropped). -/
def executeTriggers (st : WorldState) (areaId : Nat) (eventType : String)
    (ev : EventData) : WorldState :=
  (executeTriggersT st areaId eventType ev).1

/-! ## Character tool handlers (src/mcp/tools/character.js) -/

/-- maxRecent passed at every addMemory call site:
`character.character_class === 'story' ? 5 : 3`. -/
def memoryCap (c : CharClass) : Nat :=
  match c with
  | .story => 5
  | .minor => 3

/-- handleCharacterTool, case 'character_move': fetch the character (throw
NotFound when absent), write current_area_id, then fire character_enters on
the TARGET area.  No check on the target area beyond the schema FOREIGN
KEY, and no world comparison.  The trace lists the triggers fired. -/
def characterMove (st : WorldState) (character_id area_id : Nat) :
    Except String (WorldState × List Trigger) :=
  match findChar st character_id with
  | none => .error ("Character not found: " ++ toString character_id)
  | some _ =>
    match dbUpdateCharacter st character_id { current_area_id := some (some area_id) } with
    | .error e => .error e
    | .ok (st1, _) =>
      .ok (executeTriggersT st1 area_id "character_enters" { character_id := some character_id })

/-- handleCharacterTool, case 'character_speak': fetch the character, append
the memory entry `{action:"<kind>: <text>", result:"communicated"}` with the
class cap, then when the kind is speech and the character's area id is
truthy fire character_speech on that area with `{character_id, text}`. -/
def characterSpeak (now : Nat) (st : WorldState) (character_id : Nat)
    (text action_type : String) : Except String (WorldState × List Trigger) :=
  match findChar st character_id with
  | none => .error ("Character not found: " ++ toString character_id)
  | some c =>
    match charAddMemory st character_id (action_type ++ ": " ++ text) "communicated"
        (memoryCap c.character_class) now with
    | .error e => .error e
    | .ok st1 =>
      if action_type == "speech" && natTruthy c.current_area_id then
        .ok (executeTriggersT st1 (c.current_area_id.getD 0) "character_speech"
              { character_id := some character_id, text := some text })
      else .ok (st1, [])

/-- The optional fields of a character_update_state call (the tool's input
schema: any subset of nutrition/hydration/tiredness/alertness/damage). -/
structure StateArgs where
  nutrition : Option Rat := none
  hydration : Option Rat := none
  tiredness : Option Rat := none
  alertness : Option Rat := none
  damage : Option (List DamageEntry) := none
deriving Repr, DecidableEq

/-- The CharUpdate the handler builds from the defined args. -/
def StateArgs.toUpdate (u : StateArgs) : CharUpdate :=
  { nutrition := u.nutrition, hydration := u.hydration,
    tiredness := u.tiredness, alertness := u.alertness, damage := u.damage }

/-- handleCharacterTool, case 'character_update_state': forward the provided
fields to Character.update; throw NotFound when no row came back.  The
handler neither clamps values nor couples tiredness and alertness. -/
def characterUpdateState (st : WorldState) (character_id : Nat) (u : StateArgs) :
    Except String WorldState :=
  match dbUpdateCharacter st character_id u.toUpdate with
  | .error e => .error e
  | .ok (st1, res) =>
    match res with
    | none => .error ("Character not found: " ++ toString character_id)
    | some _ => .ok st1

/-- handleCharacterTool, case 'character_add_memory': fetch the character,
append `{action, result}` with the class cap.  Emits no event. -/
def characterAddMemory (now : Nat) (st : WorldState) (character_id : Nat)
    (entryAction entryResult : String) : Except String WorldState :=
  match findChar st character_id with
  | none => .error ("Character not found: " ++ toString character_id)
  | some c =>
    charAddMemory st character_id entryAction entryResult (memoryCap c.character_class) now

/-! ## Item tool handlers (src/mcp/tools/item.js) -/

/-- handleItemTool, case 'item_pickup': fetch character and item (NotFound),
reject when `item.current_area_id !== character.current_area_id` (note:
null equals null, so a held or area-less item can be taken by an area-less
character), give the item to the character, fire item_picked_up only when
the character's area id is truthy, then append the pickup memory.  There is
no held-slot check and no character-has-no-area check. -/
def itemPickup (now : Nat) (st : WorldState) (character_id item_id : Nat)
    (location : String) : Except String (WorldState × List Trigger) :=
  match findChar st character_id with
  | none => .error ("Character not found: " ++ toString character_id)
  | some c =>
    match findItem st item_id with
    | none => .error ("Item not found: " ++ toString item_id)
    | some it =>
      if !(it.current_area_id == c.current_area_id) then
        .error "Item is not in character's current area"
      else
        match itemGiveToCharacter st item_id character_id location with
        | .error e => .error e
        | .ok (st1, _) =>
          let (st2, fired) :=
            if natTruthy c.current_area_id then
              executeTriggersT st1 (c.current_area_id.getD 0) "item_picked_up"
                { character_id := some character_id, item_id := some item_id }
            else (st1, [])
          match charAddMemory st2 character_id ("picked up " ++ it.name)
              ("now holding in " ++ location) (memoryCap c.character_class) now with
          | .error e => .error e
          | .ok st3 => .ok (st3, fired)

/-- handleItemTool, case 'item_drop': fetch character and item, reject when
the item's holder is not the character (NotHolding) or the character's area
id is falsy (NoArea), move the item to the character's area, fire
item_dropped, append the drop memory. -/
def itemDrop (now : Nat) (st : WorldState) (character_id item_id : Nat) :
    Except String (WorldState × List Trigger) :=
  match findChar st character_id with
  | none => .error ("Character not found: " ++ toString character_id)
  | some c =>
    match findItem st item_id with
    | none => .error ("Item not found: " ++ toString item_id)
    | some it =>
      if !(it.held_by_character_id == some character_id) then
        .error "Character is not holding this item"
      else if !(natTruthy c.current_area_id) then
        .error "Character is not in any area"
      else
        match itemMoveToArea st item_id (c.current_area_id.getD 0) with
        | .error e => .error e
        | .ok (st1, _) =>
          let (st2, fired) :=
            executeTriggersT st1 (c.current_area_id.getD 0) "item_dropped"
              { character_id := some character_id, item_id := some item_id }
          match charAddMemory st2 character_id ("dropped " ++ it.name)
              "item left in area" (memoryCap c.character_class) now with
          | .error e => .error e
          | .ok st3 => .ok (st3, fired)

/-- handleItemTool, case 'item_create': INSERT a new item with
`description || ''`, `properties || {}` and `area_id || null` (a zero area
id is coerced to null by the JS `||`).  The area FOREIGN KEY applies. -/
def itemCreate (st : WorldState) (world_id : Nat) (name : String)
    (description : Option String) (properties : Option (List (String × String)))
    (area_id : Option Nat) : Except String WorldState :=
  let aid : Option Nat := if natTruthy area_id then some (area_id.getD 0) else none
  match aid with
  | some a =>
    if (findArea st a).isSome then
      .ok (itemInsert st world_id name (description.getD "") (properties.getD []) aid).1
    else .error "foreign key violation on items.current_area_id"
  | none => .ok (itemInsert st world_id name (description.getD "") (properties.getD []) none).1

/-! ## WebSocket tools/call dispatch (src/mcp/server.js) -/

/-- The character- and item-mutating tool calls of the catalogue, with the
typed parameters of their input schemas. -/
inductive ToolCall where
  | character_move (character_id area_id : Nat)
  | character_speak (character_id : Nat) (text action_type : String)
  | character_update_state (character_id : Nat) (u : StateArgs)
  | character_add_memory (character_id : Nat) (action result : String)
  | item_pickup (character_id item_id : Nat) (location : String)
  | item_drop (character_id item_id : Nat)
  | item_create (world_id : Nat) (name : String) (description : Option String)
      (properties : Option (List (String × String))) (area_id : Option Nat)
deriving Repr, DecidableEq

/-- The tools/call path of the WebSocket transport: the message handler in
startWebSocketServer parses `{name, arguments}` and routes by tool-name
fragment straight into the tool handlers.  It consults no session store and
performs no canControl check — the auth module of src/mcp/handlers/auth.js
is not even imported by the server.  A thrown handler error becomes the
{isError:true} response (the Except.error case). -/
def wsToolsCall (now : Nat) (st : WorldState) (call : ToolCall) :
    Except String WorldState :=
  match call with
  | .character_move cid aid => (characterMove st cid aid).map (·.1)
  | .character_speak cid text ty => (characterSpeak now st cid text ty).map (·.1)
  | .character_update_state cid u => characterUpdateState st cid u
  | .character_add_memory cid a r => characterAddMemory now st cid a r
  | .item_pickup cid iid loc => (itemPickup now st cid iid loc).map (·.1)
  | .item_drop cid iid => (itemDrop now st cid iid).map (·.1)
  | .item_create wid n d p a => itemCreate st wid n d p a

/-! ## Session and ownership layer (src/mcp/handlers/auth.js) -/

/-- One entry of the in-memory sessions Map. -/
structure Session where
  playerId : String
  characterId : Nat
  createdAt : Nat
  lastActivity : Nat
deriving Repr, DecidableEq

/-- The sessions Map, token → session. -/
abbrev SessionStore := List (String × Session)

/-- `sessions.set(token, s)`: replace an existing binding or add one. -/
def storeSet (store : SessionStore) (token : String) (s : Session) : SessionStore :=
  if (store.any (fun p => p.1 == token) : Bool) then
    store.map (fun p => if p.1 == token then (token, s) else p)
  else store ++ [(token, s)]

/-- `sessions.get(token)`. -/
def storeGet (store : SessionStore) (token : String) : Option Session :=
  (store.find? (fun p => p.1 == token)).map (·.2)

/-- `sessions.delete(token)`. -/
def storeDelete (store : SessionStore) (token : String) : SessionStore :=
  store.filter (fun p => !(p.1 == token))

/-- The sessions of one character currently in the store. -/
def sessionsForChar (store : SessionStore) (characterId : Nat) : SessionStore :=
  store.filter (fun p => p.2.characterId == characterId)

/-- 24 hours in milliseconds (MAX_AGE). -/
def maxSessionAge : Nat := 24 * 60 * 60 * 1000

/-- createSession: unconditionally insert a fresh session under the given
token (token generation is an external input here) and return the token. -/
def createSession (store : SessionStore) (playerId : String) (characterId : Nat)
    (token : String) (now : Nat) : SessionStore × String :=
  (storeSet store token
    { playerId := playerId, characterId := characterId,
      createdAt := now, lastActivity := now }, token)

/-- validateSession: missing token → null; otherwise update lastActivity,
then delete and return null when older than 24h, else return the session. -/
def validateSession (store : SessionStore) (token : String) (now : Nat) :
    SessionStore × Option Session :=
  match storeGet store token with
  | none => (store, none)
  | some s =>
    let s1 := { s with lastActivity := now }
    let store1 := storeSet store token s1
    if now - s1.createdAt > maxSessionAge then (storeDelete store1 token, none)
    else (store1, some s1)

/-- claimCharacter: NotFound when the character is absent; AlreadyOwned when
owner_id is truthy and differs from the player; otherwise write owner_id
and create a session.  Nothing removes or reuses an existing session of the
same character. -/
def claimCharacter (st : WorldState) (store : SessionStore) (playerId : String)
    (characterId : Nat) (token : String) (now : Nat) :
    Except String (WorldState × SessionStore × String) :=
  match findChar st characterId with
  | none => .error "Character not found"
  | some c =>
    if strTruthy c.owner_id && !(c.owner_id == some playerId) then
      .error "Character is already claimed by another player"
    else
      match dbUpdateCharacter st characterId { owner_id := some (some playerId) } with
      | .error e => .error e
      | .ok (st1, _) =>
        let (store1, tok) := createSession store playerId characterId token now
        .ok (st1, store1, tok)

/-- releaseCharacter: clear owner_id, then delete every session of the
character. -/
def releaseCharacter (st : WorldState) (store : SessionStore) (characterId : Nat) :
    Except String (WorldState × SessionStore) :=
  match dbUpdateCharacter st characterId { owner_id := some none } with
  | .error e => .error e
  | .ok (st1, _) =>
    .ok (st1, store.filter (fun p => !(p.2.characterId == characterId)))

/-- canControlCharacter: true iff the character exists and its owner_id
equals the player id. -/
def canControlCharacter (st : WorldState) (playerId : String) (characterId : Nat) : Bool :=
  match findChar st characterId with
  | none => false
  | some c => c.owner_id == some playerId

/-- cleanupSessions (the hourly sweep): drop sessions older than 24h. -/
def cleanupSessions (store : SessionStore) (now : Nat) : SessionStore :=
  store.filter (fun p => !(now - p.2.createdAt > maxSessionAge))

/-! ## Decidability of result comparison -/

instance {ε α : Type} [DecidableEq ε] [DecidableEq α] : DecidableEq (Except ε α) :=
  fun a b =>
    match a, b with
    | .ok x, .ok y =>
      if h : x = y then .isTrue (by rw [h]) else .isFalse (fun hh => by cases hh; exact h rfl)
    | .error x, .error y =>
      if h : x = y then .isTrue (by rw [h]) else .isFalse (fun hh => by cases hh; exact h rfl)
    | .ok _, .error _ => .isFalse (fun hh => by cases hh)
    | .error _, .ok _ => .isFalse (fun hh => by cases hh)

/-! ## Concrete scenario states used by the counterexamples and witnesses -/

/-- A plain character row used as a template for the scenarios. -/
def baseChar : Character :=
  { id := 0, world_id := 1, name := "X", character_class := .minor, memory := [],
    nutrition := 100, hydration := 100, tiredness := 10, alertness := 80,
    damage := [], current_area_id := none, owner_id := none }

/-- A plain area row used as a template for the scenarios. -/
def baseArea : Area :=
  { id := 1, world_id := 1, name := "A", description := "", temperature := 20,
    exits := [], triggers := [] }

/-- A plain item row used as a template for the scenarios. -/
def baseItem : Item :=
  { id := 0, world_id := 1, name := "Thing", description := "", properties := [],
    current_area_id := none, held_by_character_id := none, held_location := none }

/-- C1 scenario: two areas of one world, character 1 standing in area 1,
and no session ever created. -/
def stC1 : WorldState :=
  { areas := [baseArea, { baseArea with id := 2, name := "B" }],
    characters := [{ baseChar with id := 1, current_area_id := some 1 }],
    items := [], nextItemId := 1 }

/-- C2 scenario: character 4 awake (alertness 80), tiredness 10. -/
def stC2 : WorldState :=
  { areas := [], characters := [{ baseChar with id := 4 }], items := [], nextItemId := 1 }

/-- C3 scenario: area 1 in world 1, area 2 in world 2, character 5 of world
1 standing in area 1. -/
def stC3 : WorldState :=
  { areas := [baseArea, { baseArea with id := 2, world_id := 2, name := "B" }],
    characters := [{ baseChar with id := 5, current_area_id := some 1 }],
    items := [], nextItemId := 1 }

/-- C4 scenario: character 6 in area 3 already holds item 11 in the right
hand; item 12 lies in area 3. -/
def itemC4a : Item :=
  { baseItem with id := 11, name := "Sword", held_by_character_id := some 6, held_location := some "right hand" }

def itemC4b : Item :=
  { baseItem with id := 12, name := "Shield", current_area_id := some 3 }

def stC4 : WorldState :=
  { areas := [{ baseArea with id := 3 }],
    characters := [{ baseChar with id := 6, current_area_id := some 3 }],
    items := [itemC4a, itemC4b],
    nextItemId := 13 }

/-- C5 scenario: minor character 8 whose memory already holds five entries
(the minor-class cap is three). -/
def memC5 : List MemoryEntry :=
  (List.range 5).map (fun i => { action := toString i, result := "r", timestamp := i })

def stC5 : WorldState :=
  { areas := [], characters := [{ baseChar with id := 8, memory := memC5 }],
    items := [], nextItemId := 1 }

/-- C6 scenario: area 1 carries two one-time character_enters triggers with
distinct reactions; character 9 is about to enter. -/
def trigC6A : Trigger :=
  { condition := .str "character_enters",
    reactions := [.modify_description none (some "A")], one_time := true }

def trigC6B : Trigger :=
  { condition := .str "character_enters",
    reactions := [.modify_description none (some "B")], one_time := true }

def stC6 : WorldState :=
  { areas := [{ baseArea with triggers := [trigC6A, trigC6B] }],
    characters := [{ baseChar with id := 9 }], items := [], nextItemId := 1 }

/-- C7 scenario: a speech condition carrying both keywords and a
character_id, and a speech event by a DIFFERENT character whose text
contains the keyword. -/
def trigC7 : Trigger :=
  { condition := .obj (some "character_speech") (some ["sesame"]) (some 1) none,
    reactions := [], one_time := false }

def evC7 : EventData := { character_id := some 2, text := some "Open Sesame!" }

/-- C9 scenario: unowned character 3, empty session store. -/
def stC9 : WorldState :=
  { areas := [], characters := [{ baseChar with id := 3 }], items := [], nextItemId := 1 }

/-- C10 scenario: character 1 has no area; item 7 also has a null area
because character 2 holds it in the right hand. -/
def itemC10 : Item :=
  { baseItem with id := 7, name := "Coin", held_by_character_id := some 2, held_location := some "right hand" }

def stC10 : WorldState :=
  { areas := [], characters := [{ baseChar with id := 1 }, { baseChar with id := 2 }],
    items := [itemC10],
    nextItemId := 8 }

/-! ## Claim-side predicates -/

/-- The object-condition semantics exactly as claim C7 words it: type
equality AND (keywords present on a speech event → some keyword appears
case-insensitively in the text) AND (character_id present → the event's
character_id equals it) AND (item_id present → the event's item_id equals
it).  Written from the claim, for comparison against shouldTriggerFire. -/
def claimObjMatches (ty : String) (kws : Option (List String)) (cid iid : Option Nat)
    (eventType : String) (ev : EventData) : Prop :=
  ty = eventType ∧
  (kws.isSome ∧ eventType = "character_speech" →
    ∃ k ∈ kws.getD [], containsSub (lowerChars (ev.text.getD "")) (lowerChars k) = true) ∧
  (∀ n, cid = some n → ev.character_id = some n) ∧
  (∀ n, iid = some n → ev.item_id = some n)

instance (ty kws cid iid eventType ev) :
    Decidable (claimObjMatches ty kws cid iid eventType ev) := by
  unfold claimObjMatches; infer_instance

/-- The corrected object-condition semantics: after the type test, a
character_speech event with keywords present is decided by the keyword test
ALONE (the character_id / item_id fields are never consulted); only
otherwise do the character_id / item_id equality tests apply. -/
def amendedObjMatches (ty : Option String) (kws : Option (List String))
    (cid iid : Option Nat) (eventType : String) (ev : EventData) : Prop :=
  (strTruthy ty = true → ty.getD "" = eventType) ∧
  (if eventType = "character_speech" ∧ kws.isSome then
    ∃ k ∈ kws.getD [], containsSub (lowerChars (ev.text.getD "")) (lowerChars k) = true
   else (natTruthy cid = true → cid = ev.character_id) ∧
        (natTruthy iid = true → iid = ev.item_id))

/-- No area of the state carries any trigger (used to state handler results
that would otherwise depend on arbitrary trigger reactions). -/
def noTriggersIn (st : WorldState) : Prop :=
  ∀ a ∈ st.areas, a.triggers = []

instance (st : WorldState) : Decidable (noTriggersIn st) := by
  unfold noTriggersIn; infer_instance

/-! ## Helper lemmas -/

theorem find?_map_pres {α : Type} (f : α → α) (p : α → Bool) (h : ∀ a, p (f a) = p a)
    (l : List α) : (l.map f).find? p = (l.find? p).map f := by
  induction l with
  | nil => rfl
  | cons x xs ih =>
    by_cases hp : p x = true
    · simp [List.find?_cons, h, hp]
    · simp only [Bool.not_eq_true] at hp
      simp [List.find?_cons, h, hp, ih]

theorem getLast?_filter_cons_nil {α : Type} (p : α → Bool) (x : α) (l : List α)
    (h : l.filter p = []) :
    ((x :: l).filter p).getLast? = if p x then some x else none := by
  rw [List.filter_cons, h]
  by_cases hp : p x = true
  · simp [hp]
  · simp only [Bool.not_eq_true] at hp
    simp [hp]

theorem getLast?_filter_cons_ne {α : Type} (p : α → Bool) (x : α) (l : List α)
    (h : l.filter p ≠ []) :
    ((x :: l).filter p).getLast? = (l.filter p).getLast? := by
  rw [List.filter_cons]
  by_cases hp : p x = true
  · rw [if_pos hp]
    cases hl : l.filter p with
    | nil => exact absurd hl h
    | cons y ys => rw [List.getLast?_cons_cons]
  · simp only [Bool.not_eq_true] at hp
    rw [if_neg (by simp [hp])]

theorem applyAreaUpdate_id (a : Area) (u : AreaUpdate) : (applyAreaUpdate a u).id = a.id := rfl

theorem dbUpdateArea_findArea (st : WorldState) (id : Nat) (u : AreaUpdate) (x : Nat) :
    findArea (dbUpdateArea st id u) x =
      (findArea st x).map (fun a => if a.id == id then applyAreaUpdate a u else a) := by
  unfold dbUpdateArea findArea
  apply find?_map_pres
  intro a
  show ((if (a.id == id) = true then applyAreaUpdate a u else a).id == x) = (a.id == x)
  split <;> rfl

theorem dbUpdateArea_characters (st : WorldState) (id : Nat) (u : AreaUpdate) :
    (dbUpdateArea st id u).characters = st.characters := rfl

theorem dbUpdateArea_items (st : WorldState) (id : Nat) (u : AreaUpdate) :
    (dbUpdateArea st id u).items = st.items := rfl

theorem dbUpdateArea_areas_triggers (st : WorldState) (id : Nat) (u : AreaUpdate)
    (hu : u.triggers = none) :
    (dbUpdateArea st id u).areas.map (fun a => a.triggers) =
      st.areas.map (fun a => a.triggers) := by
  unfold dbUpdateArea
  dsimp only
  rw [List.map_map]
  apply List.map_congr_left
  intro a _
  show (if (a.id == id) = true then applyAreaUpdate a u else a).triggers = a.triggers
  split
  · show u.triggers.getD a.triggers = a.triggers
    rw [hu]; rfl
  · rfl

theorem reactionStep_areas (areaId : Nat) (area : Area) (acc : WorldState × PendingUpd)
    (r : Reaction) : ((reactionStep areaId area acc r).1).areas = acc.1.areas := by
  rcases acc with ⟨st, upd⟩
  cases r <;> dsimp [reactionStep, itemInsert, itemDelete] <;> (repeat' split) <;> rfl

theorem reactionStep_characters (areaId : Nat) (area : Area) (acc : WorldState × PendingUpd)
    (r : Reaction) : ((reactionStep areaId area acc r).1).characters = acc.1.characters := by
  rcases acc with ⟨st, upd⟩
  cases r <;> dsimp [reactionStep, itemInsert, itemDelete] <;> (repeat' split) <;> rfl

theorem foldl_reactionStep_areas (areaId : Nat) (area : Area) (rs : List Reaction) :
    ∀ acc : WorldState × PendingUpd,
      ((rs.foldl (reactionStep areaId area) acc).1).areas = acc.1.areas := by
  induction rs with
  | nil => intro acc; rfl
  | cons r rest ih =>
    intro acc
    rw [List.foldl_cons, ih (reactionStep areaId area acc r), reactionStep_areas]

theorem foldl_reactionStep_characters (areaId : Nat) (area : Area) (rs : List Reaction) :
    ∀ acc : WorldState × PendingUpd,
      ((rs.foldl (reactionStep areaId area) acc).1).characters = acc.1.characters := by
  induction rs with
  | nil => intro acc; rfl
  | cons r rest ih =>
    intro acc
    rw [List.foldl_cons, ih (reactionStep areaId area acc r), reactionStep_characters]

theorem findArea_eq_of_areas {st st' : WorldState} (h : st'.areas = st.areas) (x : Nat) :
    findArea st' x = findArea st x := by
  unfold findArea; rw [h]

theorem executeReactions_findArea_triggers (st : WorldState) (areaId : Nat)
    (rs : List Reaction) (ev : EventData) (x : Nat) :
    (findArea (executeReactions st areaId rs ev) x).map (fun a => a.triggers) =
      (findArea st x).map (fun a => a.triggers) := by
  unfold executeReactions
  split
  · rfl
  · cases hA : findArea st areaId with
    | none => rfl
    | some area =>
      rcases hp : rs.foldl (reactionStep areaId area) (st, {}) with ⟨st1, upd⟩
      have hareas : st1.areas = st.areas := by
        have h2 := foldl_reactionStep_areas areaId area rs (st, {})
        rw [hp] at h2; exact h2
      dsimp only
      rw [hp]
      dsimp only
      split
      · rw [findArea_eq_of_areas hareas]
      · rw [dbUpdateArea_findArea, Option.map_map, findArea_eq_of_areas hareas]
        rcases hx : findArea st x with _ | a
        · rfl
        · show some _ = some a.triggers
          congr 1
          show (if (a.id == areaId) = true then applyAreaUpdate a _ else a).triggers = a.triggers
          split <;> rfl

theorem executeReactions_characters (st : WorldState) (areaId : Nat)
    (rs : List Reaction) (ev : EventData) :
    (executeReactions st areaId rs ev).characters = st.characters := by
  unfold executeReactions
  split
  · rfl
  · cases hA : findArea st areaId with
    | none => rfl
    | some area =>
      rcases hp : rs.foldl (reactionStep areaId area) (st, {}) with ⟨st1, upd⟩
      have hchars : st1.characters = st.characters := by
        have h2 := foldl_reactionStep_characters areaId area rs (st, {})
        rw [hp] at h2; exact h2
      dsimp only
      rw [hp]
      dsimp only
      split
      · exact hchars
      · rw [dbUpdateArea_characters]; exact hchars

theorem executeReactions_areas_triggers (st : WorldState) (areaId : Nat)
    (rs : List Reaction) (ev : EventData) :
    (executeReactions st areaId rs ev).areas.map (fun a => a.triggers) =
      st.areas.map (fun a => a.triggers) := by
  unfold executeReactions
  split
  · rfl
  · cases hA : findArea st areaId with
    | none => rfl
    | some area =>
      rcases hp : rs.foldl (reactionStep areaId area) (st, {}) with ⟨st1, upd⟩
      have hareas : st1.areas = st.areas := by
        have h2 := foldl_reactionStep_areas areaId area rs (st, {})
        rw [hp] at h2; exact h2
      dsimp only
      rw [hp]
      dsimp only
      split
      · rw [hareas]
      · rw [dbUpdateArea_areas_triggers _ _ _ rfl, hareas]

theorem fireAll_characters (areaId : Nat) (ev : EventData) (orig : List Trigger) :
    ∀ (ms : List Trigger) (st : WorldState),
      (fireAll areaId ev orig st ms).characters = st.characters := by
  intro ms
  induction ms with
  | nil => intro st; rfl
  | cons t rest ih =>
    intro st
    show (fireAll areaId ev orig _ rest).characters = st.characters
    rw [ih]
    split
    · rw [dbUpdateArea_characters, executeReactions_characters]
    · rw [executeReactions_characters]

theorem isSome_of_map_triggers {o o' : Option Area}
    (h : o'.map (fun a => a.triggers) = o.map (fun a => a.triggers)) :
    o'.isSome = o.isSome := by
  have := congrArg Option.isSome h
  rwa [Option.isSome_map', Option.isSome_map'] at this

theorem findArea_dbUpdateArea_isSome (st : WorldState) (id : Nat) (u : AreaUpdate) (x : Nat) :
    (findArea (dbUpdateArea st id u) x).isSome = (findArea st x).isSome := by
  rw [dbUpdateArea_findArea, Option.isSome_map']

/-- Setting the triggers of an existing area through Area.update stores
exactly the given list. -/
theorem findArea_set_triggers (st : WorldState) (id : Nat) (l : List Trigger)
    (h : (findArea st id).isSome = true) :
    (findArea (dbUpdateArea st id { triggers := some l }) id).map (fun a => a.triggers) =
      some l := by
  rcases hA : findArea st id with _ | a
  · rw [hA] at h; cases h
  · have hA2 : st.areas.find? (fun x => x.id == id) = some a := hA
    have h3 := List.find?_some hA2
    have hid : (a.id == id) = true := h3
    rw [dbUpdateArea_findArea, hA]
    show some (if (a.id == id) = true then applyAreaUpdate a _ else a).triggers = some l
    rw [if_pos hid]
    rfl

/-- The write-back loop of executeTriggers: the trigger list stored at the
end is decided by the LAST matched one-time trigger alone, because every
removal filters the ORIGINAL list. -/
theorem fireAll_triggers (areaId : Nat) (ev : EventData) (orig : List Trigger) :
    ∀ (ms : List Trigger) (st : WorldState), (findArea st areaId).isSome = true →
      (findArea (fireAll areaId ev orig st ms) areaId).map (fun a => a.triggers) =
        match (ms.filter (fun t => t.one_time)).getLast? with
        | none => (findArea st areaId).map (fun a => a.triggers)
        | some t => some (orig.filter (fun t2 => decide (t2 ≠ t))) := by
  intro ms
  induction ms with
  | nil => intro st h; rfl
  | cons t rest ih =>
    intro st h
    have h1 : (findArea (executeReactions st areaId t.reactions ev) areaId).isSome = true := by
      rw [isSome_of_map_triggers (executeReactions_findArea_triggers st areaId t.reactions ev areaId)]
      exact h
    show (findArea (fireAll areaId ev orig (if t.one_time = true then _ else _) rest) areaId).map _ = _
    by_cases hone : t.one_time = true
    · rw [if_pos hone]
      have h2 : (findArea (dbUpdateArea (executeReactions st areaId t.reactions ev) areaId
          { triggers := some (orig.filter (fun t2 => decide (t2 ≠ t))) }) areaId).isSome = true := by
        rw [findArea_dbUpdateArea_isSome]; exact h1
      rw [ih _ h2]
      by_cases hrest : rest.filter (fun t2 => t2.one_time) = []
      · rw [hrest]
        have hlast := getLast?_filter_cons_nil (fun t2 => t2.one_time) t rest hrest
        rw [hlast, if_pos hone]
        show (findArea (dbUpdateArea _ areaId _) areaId).map _ = some _
        rw [findArea_set_triggers _ _ _ h1]
      · obtain ⟨t', ht'⟩ : ∃ t', (rest.filter (fun t2 => t2.one_time)).getLast? = some t' := by
          rcases hg : (rest.filter (fun t2 => t2.one_time)).getLast? with _ | t'
          · exact absurd (List.getLast?_eq_none_iff.mp hg) hrest
          · exact ⟨t', hg⟩
        rw [ht', getLast?_filter_cons_ne _ _ _ hrest, ht']
    · rw [if_neg hone]
      rw [ih _ h1]
      by_cases hrest : rest.filter (fun t2 => t2.one_time) = []
      · rw [hrest]
        have hlast := getLast?_filter_cons_nil (fun t2 => t2.one_time) t rest hrest
        rw [hlast, if_neg hone]
        exact executeReactions_findArea_triggers st areaId t.reactions ev areaId
      · obtain ⟨t', ht'⟩ : ∃ t', (rest.filter (fun t2 => t2.one_time)).getLast? = some t' := by
          rcases hg : (rest.filter (fun t2 => t2.one_time)).getLast? with _ | t'
          · exact absurd (List.getLast?_eq_none_iff.mp hg) hrest
          · exact ⟨t', hg⟩
        rw [ht', getLast?_filter_cons_ne _ _ _ hrest, ht']

theorem executeTriggersT_characters (st : WorldState) (areaId : Nat) (evType : String)
    (ev : EventData) : (executeTriggersT st areaId evType ev).1.characters = st.characters := by
  unfold executeTriggersT
  cases hA : findArea st areaId with
  | none => rfl
  | some area =>
    dsimp only
    split
    · rfl
    · exact fireAll_characters areaId ev area.triggers _ st

theorem executeTriggersT_snd (st : WorldState) (areaId : Nat) (evType : String)
    (ev : EventData) :
    (executeTriggersT st areaId evType ev).2 =
      match findArea st areaId with
      | none => []
      | some a => a.triggers.filter (fun t => shouldTriggerFire t evType ev) := by
  unfold executeTriggersT
  cases hA : findArea st areaId with
  | none => rfl
  | some area =>
    dsimp only
    split
    · have he : area.triggers = [] := by
        rename_i hemp
        exact List.isEmpty_iff.mp hemp
      rw [he]
      rfl
    · rfl

theorem executeTriggersT_noTriggers (st : WorldState) (areaId : Nat) (evType : String)
    (ev : EventData) (h : noTriggersIn st) :
    executeTriggersT st areaId evType ev = (st, []) := by
  unfold executeTriggersT
  cases hA : findArea st areaId with
  | none => rfl
  | some area =>
    have hmem : area ∈ st.areas := List.mem_of_find?_eq_some hA
    have htr : area.triggers = [] := h area hmem
    dsimp only
    rw [htr]
    rfl

/-- The final trigger list after one executeTriggers event: only the LAST
matched one-time trigger is removed from the stored list; with no matched
one-time trigger the list is unchanged. -/
theorem executeTriggers_final_triggers (st : WorldState) (areaId : Nat) (evType : String)
    (ev : EventData) (ar : Area) (hA : findArea st areaId = some ar) :
    (findArea (executeTriggers st areaId evType ev) areaId).map (fun a => a.triggers) =
      match ((ar.triggers.filter (fun t => shouldTriggerFire t evType ev)).filter
              (fun t => t.one_time)).getLast? with
      | none => some ar.triggers
      | some t => some (ar.triggers.filter (fun t2 => decide (t2 ≠ t))) := by
  unfold executeTriggers executeTriggersT
  rw [hA]
  dsimp only
  split
  · rename_i hemp
    have he : ar.triggers = [] := List.isEmpty_iff.mp hemp
    rw [he, hA]
    simp [he]
  · have hsome : (findArea st areaId).isSome = true := by rw [hA]; rfl
    rw [fireAll_triggers areaId ev ar.triggers _ st hsome]
    by_cases hrest : ((ar.triggers.filter (fun t => shouldTriggerFire t evType ev)).filter
        (fun t => t.one_time)) = []
    · rw [hrest, hA]
      simp
    · obtain ⟨t', ht'⟩ : ∃ t', ((ar.triggers.filter (fun t => shouldTriggerFire t evType ev)).filter
          (fun t => t.one_time)).getLast? = some t' := by
        rcases hg : ((ar.triggers.filter (fun t => shouldTriggerFire t evType ev)).filter
            (fun t => t.one_time)).getLast? with _ | t'
        · exact absurd (List.getLast?_eq_none_iff.mp hg) hrest
        · exact ⟨t', hg⟩
      rw [ht']

theorem applyCharUpdate_empty (c : Character) (u : CharUpdate) (h : u.isEmpty = true) :
    applyCharUpdate c u = c := by
  unfold CharUpdate.isEmpty at h
  simp only [Bool.and_eq_true, Option.isNone_iff_eq_none] at h
  obtain ⟨⟨⟨⟨⟨⟨⟨h1, h2⟩, h3⟩, h4⟩, h5⟩, h6⟩, h7⟩, h8⟩ := h
  unfold applyCharUpdate
  rw [h1, h2, h3, h4, h5, h6, h7, h8]
  rfl

theorem find?_write_chars (l : List Character) (id : Nat) (c c' : Character)
    (hc : l.find? (fun ch => ch.id == id) = some c) (hid : c'.id = c.id) (x : Nat) :
    (l.map (fun ch => if ch.id == id then c' else ch)).find? (fun ch => ch.id == x) =
      (l.find? (fun ch => ch.id == x)).map (fun ch => if ch.id == id then c' else ch) := by
  apply find?_map_pres
  intro a
  show ((if (a.id == id) = true then c' else a).id == x) = (a.id == x)
  by_cases h : (a.id == id) = true
  · rw [if_pos h]
    have h1 := List.find?_some hc
    have h2 : (c.id == id) = true := h1
    have h3 : c'.id = a.id := by rw [hid, beq_iff_eq.mp h2, beq_iff_eq.mp h]
    rw [h3]
  · rw [if_neg h]

theorem find?_write_items (l : List Item) (id : Nat) (c c' : Item)
    (hc : l.find? (fun ch => ch.id == id) = some c) (hid : c'.id = c.id) (x : Nat) :
    (l.map (fun ch => if ch.id == id then c' else ch)).find? (fun ch => ch.id == x) =
      (l.find? (fun ch => ch.id == x)).map (fun ch => if ch.id == id then c' else ch) := by
  apply find?_map_pres
  intro a
  show ((if (a.id == id) = true then c' else a).id == x) = (a.id == x)
  by_cases h : (a.id == id) = true
  · rw [if_pos h]
    have h1 := List.find?_some hc
    have h2 : (c.id == id) = true := h1
    have h3 : c'.id = a.id := by rw [hid, beq_iff_eq.mp h2, beq_iff_eq.mp h]
    rw [h3]
  · rw [if_neg h]

theorem dbUpdateCharacter_ok (st : WorldState) (id : Nat) (u : CharUpdate) (c : Character)
    (hc : findChar st id = some c)
    (hrow : charRowOk (applyCharUpdate c u))
    (hfk : charFkOk st (applyCharUpdate c u) = true) :
    ∃ st1, dbUpdateCharacter st id u = .ok (st1, some (applyCharUpdate c u)) ∧
      st1.areas = st.areas ∧ st1.items = st.items ∧ st1.nextItemId = st.nextItemId ∧
      findChar st1 id = some (applyCharUpdate c u) := by
  cases hemp : u.isEmpty with
  | true =>
    refine ⟨st, ?_, rfl, rfl, rfl, ?_⟩
    · unfold dbUpdateCharacter
      rw [if_pos hemp, hc, applyCharUpdate_empty c u hemp]
    · rw [hc, applyCharUpdate_empty c u hemp]
  | false =>
    refine ⟨⟨st.areas, st.characters.map
        (fun x => if x.id == id then applyCharUpdate c u else x), st.items, st.nextItemId⟩,
      ?_, rfl, rfl, rfl, ?_⟩
    · simp only [dbUpdateCharacter, hemp, Bool.false_eq_true, if_false, hc]
      rw [if_pos hrow, if_pos hfk]
    · show findChar _ id = _
      unfold findChar
      have hc2 : st.characters.find? (fun ch => ch.id == id) = some c := hc
      have hw := find?_write_chars st.characters id c (applyCharUpdate c u) hc2 rfl id
      show (st.characters.map (fun ch => if ch.id == id then applyCharUpdate c u else ch)).find?
          (fun ch => ch.id == id) = _
      rw [hw, hc2]
      have hcid := List.find?_some hc2
      have hcid2 : (c.id == id) = true := hcid
      show some (if (c.id == id) = true then applyCharUpdate c u else c) = _
      rw [if_pos hcid2]

theorem dbUpdateItem_ok (st : WorldState) (id : Nat) (u : ItemUpdate) (i : Item)
    (hc : findItem st id = some i)
    (hfk : itemFkOk st (applyItemUpdate i u) = true) :
    ∃ st1, dbUpdateItem st id u = .ok (st1, some (applyItemUpdate i u)) ∧
      st1.areas = st.areas ∧ st1.characters = st.characters ∧ st1.nextItemId = st.nextItemId ∧
      findItem st1 id = some (applyItemUpdate i u) := by
  refine ⟨⟨st.areas, st.characters, st.items.map
      (fun x => if x.id == id then applyItemUpdate i u else x), st.nextItemId⟩,
    ?_, rfl, rfl, rfl, ?_⟩
  · simp only [dbUpdateItem, hc]
    rw [if_pos hfk]
  · show findItem _ id = _
    unfold findItem
    have hc2 : st.items.find? (fun it => it.id == id) = some i := hc
    have hw := find?_write_items st.items id i (applyItemUpdate i u) hc2 rfl id
    show (st.items.map (fun it => if it.id == id then applyItemUpdate i u else it)).find?
        (fun it => it.id == id) = _
    rw [hw, hc2]
    have hcid := List.find?_some hc2
    have hcid2 : (i.id == id) = true := hcid
    show some (if (i.id == id) = true then applyItemUpdate i u else i) = _
    rw [if_pos hcid2]

theorem charAddMemory_ok (st : WorldState) (id : Nat) (ea er : String) (cap now : Nat)
    (c : Character) (hc : findChar st id = some c)
    (hrow : charRowOk c) (hfk : charFkOk st c = true) :
    ∃ st1, charAddMemory st id ea er cap now = .ok st1 ∧
      st1.areas = st.areas ∧ st1.items = st.items ∧ st1.nextItemId = st.nextItemId ∧
      findChar st1 id = some { c with memory := memAfterAppend c.memory ea er cap now } := by
  have hrow' : charRowOk (applyCharUpdate c
      { memory := some (memAfterAppend c.memory ea er cap now) }) := hrow
  have hfk' : charFkOk st (applyCharUpdate c
      { memory := some (memAfterAppend c.memory ea er cap now) }) = true := hfk
  obtain ⟨st1, heq, ha, hi, hn, hf⟩ := dbUpdateCharacter_ok st id _ c hc hrow' hfk'
  refine ⟨st1, ?_, ha, hi, hn, ?_⟩
  · simp only [charAddMemory, hc]
    rw [heq]
    rfl
  · exact hf

theorem findChar_eq_of_characters {st st' : WorldState} (h : st'.characters = st.characters)
    (x : Nat) : findChar st' x = findChar st x := by
  unfold findChar; rw [h]

theorem findItem_eq_of_items {st st' : WorldState} (h : st'.items = st.items)
    (x : Nat) : findItem st' x = findItem st x := by
  unfold findItem; rw [h]

theorem charFkOk_eq_of_areas {st st' : WorldState} (h : st'.areas = st.areas) (c : Character) :
    charFkOk st' c = charFkOk st c := by
  unfold charFkOk
  cases c.current_area_id with
  | none => rfl
  | some a => simp only [findArea_eq_of_areas h]

theorem noTriggersIn_of_areas {st st' : WorldState} (h : st'.areas = st.areas)
    (hn : noTriggersIn st) : noTriggersIn st' := by
  intro a ha
  exact hn a (h ▸ ha)

/-- The success path of the character_move handler: with the character and
the target area both present (and NOTHING else checked — in particular no
world comparison and no session), the handler commits the move and returns
ok; the character's stored area afterwards is the requested one. -/
theorem characterMove_ok (st : WorldState) (cid aid : Nat) (c : Character) (a : Area)
    (hc : findChar st cid = some c) (hrow : charRowOk c) (ha : findArea st aid = some a) :
    ∃ st' tr, characterMove st cid aid = .ok (st', tr) ∧
      findChar st' cid = some { c with current_area_id := some aid } := by
  have hrow' : charRowOk (applyCharUpdate c { current_area_id := some (some aid) }) := hrow
  have hfk' : charFkOk st (applyCharUpdate c { current_area_id := some (some aid) }) = true := by
    show (findArea st aid).isSome = true
    rw [ha]; rfl
  obtain ⟨st1, heq, hareas, hitems, hnid, hfind⟩ :=
    dbUpdateCharacter_ok st cid { current_area_id := some (some aid) } c hc hrow' hfk'
  refine ⟨(executeTriggersT st1 aid "character_enters" { character_id := some cid }).1,
    (executeTriggersT st1 aid "character_enters" { character_id := some cid }).2, ?_, ?_⟩
  · unfold characterMove
    rw [hc]
    rw [heq]
  · rw [findChar_eq_of_characters (executeTriggersT_characters st1 aid "character_enters"
      { character_id := some cid }) cid]
    exact hfind

/-- character_move throws NotFound only for a missing character. -/
theorem characterMove_notfound (st : WorldState) (cid aid : Nat)
    (hc : findChar st cid = none) :
    characterMove st cid aid = .error ("Character not found: " ++ toString cid) := by
  unfold characterMove
  rw [hc]

theorem dbUpdateCharacter_fk_error (st : WorldState) (id : Nat) (u : CharUpdate)
    (c : Character) (hemp : u.isEmpty = false) (hc : findChar st id = some c)
    (hrow : charRowOk (applyCharUpdate c u))
    (hfk : charFkOk st (applyCharUpdate c u) = false) :
    dbUpdateCharacter st id u = .error "foreign key violation on characters.current_area_id" := by
  simp only [dbUpdateCharacter, hemp, Bool.false_eq_true, if_false, hc]
  rw [if_pos hrow, if_neg (by intro hh; rw [hfk] at hh; exact Bool.false_ne_true hh)]

theorem dbUpdateCharacter_check_error (st : WorldState) (id : Nat) (u : CharUpdate)
    (c : Character) (hemp : u.isEmpty = false) (hc : findChar st id = some c)
    (hrow : ¬ charRowOk (applyCharUpdate c u)) :
    dbUpdateCharacter st id u = .error "check constraint violation on characters" := by
  simp only [dbUpdateCharacter, hemp, Bool.false_eq_true, if_false, hc]
  rw [if_neg hrow]

/-- A missing TARGET area surfaces only as the schema foreign-key error,
not as a handler NotFound check. -/
theorem characterMove_fk_error (st : WorldState) (cid aid : Nat) (c : Character)
    (hc : findChar st cid = some c) (hrow : charRowOk c) (ha : findArea st aid = none) :
    characterMove st cid aid = .error "foreign key violation on characters.current_area_id" := by
  have hrow' : charRowOk (applyCharUpdate c { current_area_id := some (some aid) }) := hrow
  have hfk0 : charFkOk st (applyCharUpdate c { current_area_id := some (some aid) }) = false := by
    show (findArea st aid).isSome = false
    rw [ha]; rfl
  unfold characterMove
  rw [hc]
  rw [dbUpdateCharacter_fk_error st cid { current_area_id := some (some aid) } c rfl hc hrow' hfk0]

/-- The success path of the item_pickup handler: character found, item
found, and the two current_area_id fields merely EQUAL (both may be null);
no held-slot check and no has-area check exist, so the pickup commits
regardless of what else the character holds. -/
theorem itemPickup_ok (now : Nat) (st : WorldState) (cid iid : Nat) (loc : String)
    (c : Character) (it : Item)
    (hc : findChar st cid = some c) (hrow : charRowOk c) (hfkc : charFkOk st c = true)
    (hit : findItem st iid = some it) (harea : it.current_area_id = c.current_area_id)
    (hnt : noTriggersIn st) :
    ∃ st3, itemPickup now st cid iid loc = .ok (st3, []) ∧
      findItem st3 iid = some { it with current_area_id := none, held_by_character_id := some cid, held_location := some loc } ∧
      findChar st3 cid = some { c with memory := memAfterAppend c.memory ("picked up " ++ it.name) ("now holding in " ++ loc) (memoryCap c.character_class) now } := by
  have hfki : itemFkOk st (applyItemUpdate it
      { current_area_id := some none
        held_by_character_id := some (some cid)
        held_location := some (some loc) }) = true := by
    show (true && (findChar st cid).isSome) = true
    rw [hc]; rfl
  obtain ⟨st1, heq1, hareas1, hchars1, hnid1, hfind1⟩ := dbUpdateItem_ok st iid
    { current_area_id := some none
      held_by_character_id := some (some cid)
      held_location := some (some loc) } it hit hfki
  have hgive : itemGiveToCharacter st iid cid loc = .ok (st1, some (applyItemUpdate it
    { current_area_id := some none
      held_by_character_id := some (some cid)
      held_location := some (some loc) })) := heq1
  have hbeq : (it.current_area_id == c.current_area_id) = true := by
    rw [harea]; exact beq_self_eq_true c.current_area_id
  have hnt1 : noTriggersIn st1 := noTriggersIn_of_areas hareas1 hnt
  have hif : (if natTruthy c.current_area_id = true then
      executeTriggersT st1 (c.current_area_id.getD 0) "item_picked_up"
        { character_id := some cid, item_id := some iid } else (st1, [])) = (st1, []) := by
    by_cases hcc : natTruthy c.current_area_id = true
    · rw [if_pos hcc, executeTriggersT_noTriggers st1 (c.current_area_id.getD 0)
        "item_picked_up" { character_id := some cid, item_id := some iid } hnt1]
    · rw [if_neg hcc]
  have hfc1 : findChar st1 cid = some c := by
    rw [findChar_eq_of_characters hchars1]; exact hc
  have hfkc1 : charFkOk st1 c = true := by
    rw [charFkOk_eq_of_areas hareas1]; exact hfkc
  obtain ⟨st3, heq3, ha3, hi3, hn3, hf3⟩ := charAddMemory_ok st1 cid
    ("picked up " ++ it.name) ("now holding in " ++ loc) (memoryCap c.character_class) now
    c hfc1 hrow hfkc1
  refine ⟨st3, ?_, ?_, ?_⟩
  · simp only [itemPickup, hc, hit, hbeq, Bool.not_true, Bool.false_eq_true, if_false,
      hgive, hif, heq3]
  · rw [findItem_eq_of_items hi3]
    exact hfind1
  · exact hf3

/-! ## Claim theorems -/

/-- C1, counterexample: a `character_move` tools/call arriving over the
WebSocket dispatch with NO session token (the transport takes no session
input at all, and the session store of stC1 is empty — no claim was ever
made) is APPLIED: character 1 moves from area 1 to area 2 and the call
returns ok.  The claim requires such a call to be rejected unless a valid
token passing canControl is presented. -/
theorem C1_counterexample :
    (wsToolsCall 0 stC1 (ToolCall.character_move 1 2)).map
        (fun s => (findChar s 1).map (fun c => c.current_area_id)) = .ok (some (some 2)) ∧
      (findChar stC1 1).map (fun c => c.current_area_id) = some (some 1) := by
  constructor
  · decide
  · decide

/-- C1 (amended): the WebSocket tools/call dispatch performs NO
authorization.  For every mutating character_move call whose character and
target area exist, the dispatch executes the move unconditionally — there
is no session-token or canControl hypothesis anywhere, because the
transport never consults the auth layer. -/
theorem C1_amended (now : Nat) (st : WorldState) (cid aid : Nat) (c : Character) (a : Area)
    (hc : findChar st cid = some c) (hrow : charRowOk c) (ha : findArea st aid = some a) :
    (wsToolsCall now st (ToolCall.character_move cid aid)).map
      (fun s => (findChar s cid).map (fun x => x.current_area_id)) = .ok (some (some aid)) := by
  obtain ⟨st', tr, h1, h2⟩ := characterMove_ok st cid aid c a hc hrow ha
  simp only [wsToolsCall, h1, Except.map]
  rw [h2]
  rfl

/-- C1, witness for the amended theorem at a concrete input. -/
theorem C1_witness :
    (wsToolsCall 7 stC1 (ToolCall.character_move 1 1)).map
      (fun s => (findChar s 1).map (fun x => x.current_area_id)) = .ok (some (some 1)) :=
  C1_amended 7 stC1 1 1 { baseChar with id := 1, current_area_id := some 1 } baseArea
    (by decide) (by decide) (by decide)

/-- C2, counterexample: character_update_state sets tiredness to exactly
100 while alertness stays at 80 — no forced-sleep coupling is applied,
where the claim requires alertness to be set to 0 in the same update. -/
theorem C2_counterexample :
    (characterUpdateState stC2 4 { tiredness := some 100 }).map
      (fun s => (findChar s 4).map (fun c => (c.tiredness, c.alertness))) =
      .ok (some (100, 80)) := by
  decide

/-- C2 (amended): character_update_state stores the provided values
verbatim.  When every resulting percentage lies in [0,100] the call
succeeds and the stored row is exactly the input row (in particular
alertness is untouched when not provided, even when tiredness is set to
100); when some value is out of range the storage CHECK constraint rejects
the whole call with an error — nothing is clamped. -/
theorem C2_amended (st : WorldState) (cid : Nat) (u : StateArgs) (c : Character)
    (hc : findChar st cid = some c) (hfk : charFkOk st c = true) :
    (charRowOk (applyCharUpdate c u.toUpdate) →
      (characterUpdateState st cid u).map (fun s => findChar s cid) =
        .ok (some (applyCharUpdate c u.toUpdate))) ∧
    (¬ charRowOk (applyCharUpdate c u.toUpdate) → u.toUpdate.isEmpty = false →
      characterUpdateState st cid u = .error "check constraint violation on characters") := by
  constructor
  · intro hrow
    have hfk' : charFkOk st (applyCharUpdate c u.toUpdate) = true := hfk
    obtain ⟨st1, heq, _, _, _, hf⟩ := dbUpdateCharacter_ok st cid u.toUpdate c hc hrow hfk'
    simp only [characterUpdateState, heq, Except.map]
    rw [hf]
  · intro hrow hne
    have herr := dbUpdateCharacter_check_error st cid u.toUpdate c hne hc hrow
    simp only [characterUpdateState, herr]

/-- C2, witness for the amended theorem at a concrete input. -/
theorem C2_witness :
    (characterUpdateState stC2 4 { tiredness := some 100 }).map (fun s => findChar s 4) =
      .ok (some (applyCharUpdate { baseChar with id := 4 }
        (StateArgs.toUpdate { tiredness := some 100 }))) :=
  (C2_amended stC2 4 { tiredness := some 100 } { baseChar with id := 4 }
    (by decide) (by decide)).1 (by decide)

/-- C3, counterexample: character 5 lives in world 1, area 2 lives in world
2, and character_move(5, 2) SUCCEEDS, storing the cross-world area — the
claim requires a CrossWorld failure. -/
theorem C3_counterexample :
    (characterMove stC3 5 2).map
        (fun p => (findChar p.1 5).map (fun c => c.current_area_id)) = .ok (some (some 2)) ∧
      (findChar stC3 5).map (fun c => c.world_id) = some 1 ∧
      (findArea stC3 2).map (fun a => a.world_id) = some 2 := by
  refine ⟨by decide, by decide, by decide⟩

/-- C3 (amended): character_move fails NotFound only for a missing
CHARACTER; a missing target area surfaces merely as the schema foreign-key
error; and whenever both ids resolve the move is applied with NO
cross-world check — the character and the area may belong to different
worlds. -/
theorem C3_amended (st : WorldState) (cid aid : Nat) :
    (findChar st cid = none →
      characterMove st cid aid = .error ("Character not found: " ++ toString cid)) ∧
    (∀ c, findChar st cid = some c → charRowOk c → findArea st aid = none →
      characterMove st cid aid = .error "foreign key violation on characters.current_area_id") ∧
    (∀ c a, findChar st cid = some c → charRowOk c → findArea st aid = some a →
      ∃ st' tr, characterMove st cid aid = .ok (st', tr) ∧
        findChar st' cid = some { c with current_area_id := some aid }) := by
  refine ⟨characterMove_notfound st cid aid, ?_, ?_⟩
  · intro c hc hrow ha
    exact characterMove_fk_error st cid aid c hc hrow ha
  · intro c a hc hrow ha
    exact characterMove_ok st cid aid c a hc hrow ha

/-- C3, witness for the amended theorem at a concrete input: moving to a
nonexistent area id fails with the foreign-key error, not NotFound. -/
theorem C3_witness :
    characterMove stC3 5 99 = .error "foreign key violation on characters.current_area_id" :=
  (C3_amended stC3 5 99).2.1 { baseChar with id := 5, current_area_id := some 1 }
    (by decide) (by decide) (by decide)

/-- C4, counterexample: character 6 already holds item 11 in the right
hand, yet item_pickup of item 12 into the SAME right hand succeeds and both
items end up held at "right hand" — the claim requires a SlotOccupied
failure. -/
theorem C4_counterexample :
    (itemPickup 0 stC4 6 12 "right hand").map
      (fun p => ((findItem p.1 12).map (fun i => (i.held_by_character_id, i.held_location)),
        (findItem p.1 11).map (fun i => (i.held_by_character_id, i.held_location)))) =
      .ok (some (some 6, some "right hand"), some (some 6, some "right hand")) := by
  decide

/-- C4 (amended): item_pickup checks only that both ids resolve and that
the item's current_area_id EQUALS the character's (NotHere otherwise);
there is no SlotOccupied check — a pickup into an already-occupied hand
succeeds — and no NoArea check on the character. -/
theorem C4_amended (now : Nat) (st : WorldState) (cid iid : Nat) (loc : String) :
    (∀ c it, findChar st cid = some c → findItem st iid = some it →
      (it.current_area_id == c.current_area_id) = false →
      itemPickup now st cid iid loc = .error "Item is not in character's current area") ∧
    (∀ c it, findChar st cid = some c → charRowOk c → charFkOk st c = true →
      findItem st iid = some it → it.current_area_id = c.current_area_id → noTriggersIn st →
      ∃ st3, itemPickup now st cid iid loc = .ok (st3, []) ∧
        findItem st3 iid = some { it with current_area_id := none, held_by_character_id := some cid, held_location := some loc }) := by
  constructor
  · intro c it hc hit hbeq
    simp only [itemPickup, hc, hit, hbeq, Bool.not_false, if_true]
  · intro c it hc hrow hfkc hit harea hnt
    obtain ⟨st3, h1, h2, h3⟩ := itemPickup_ok now st cid iid loc c it hc hrow hfkc hit harea hnt
    exact ⟨st3, h1, h2⟩

/-- C4, witness for the amended theorem at a concrete input: picking item
12 into the left hand while the right hand is full also succeeds. -/
theorem C4_witness :
    (itemPickup 3 stC4 6 12 "left hand").map
      (fun p => (findItem p.1 12).map (fun i => i.held_location)) =
      .ok (some (some "left hand")) := by
  obtain ⟨st3, h1, h2⟩ := (C4_amended 3 stC4 6 12 "left hand").2
    { baseChar with id := 6, current_area_id := some 3 } itemC4b
    (by decide) (by decide) (by decide) (by decide) (by decide) (by decide)
  simp only [h1, Except.map]
  rw [h2]
  rfl

/-- C5, counterexample: minor character 8 starts with five memory entries
(cap three); after a kernel append through character_add_memory the memory
STILL holds five entries — only one oldest entry was dropped, not the
excess beyond the cap. -/
theorem C5_counterexample :
    (characterAddMemory 9 stC5 8 "a" "r").map
      (fun s => (findChar s 8).map (fun c => (c.character_class, c.memory.length))) =
      .ok (some (CharClass.minor, 5)) := by
  decide

/-- C5 (amended): each kernel append pushes the new entry and drops AT MOST
ONE oldest entry: the length grows by one strictly below the cap and stays
constant otherwise, so a memory at or below the cap stays there, but a
memory already longer than the cap is never truncated down to it.  The
retained list is always a suffix of the pushed list (most recent kept). -/
theorem C5_amended (now : Nat) (st : WorldState) (cid : Nat) (ea er : String) (c : Character)
    (hc : findChar st cid = some c) (hrow : charRowOk c) (hfk : charFkOk st c = true) :
    (∃ st1, characterAddMemory now st cid ea er = .ok st1 ∧
      findChar st1 cid = some { c with memory := memAfterAppend c.memory ea er (memoryCap c.character_class) now }) ∧
    ((memAfterAppend c.memory ea er (memoryCap c.character_class) now).length =
      if c.memory.length < memoryCap c.character_class then c.memory.length + 1 else c.memory.length) ∧
    (c.memory.length ≤ memoryCap c.character_class →
      (memAfterAppend c.memory ea er (memoryCap c.character_class) now).length ≤ memoryCap c.character_class) ∧
    (memAfterAppend c.memory ea er (memoryCap c.character_class) now) <:+ (c.memory ++ [{ action := ea, result := er, timestamp := now }]) := by
  have hlen : (memAfterAppend c.memory ea er (memoryCap c.character_class) now).length =
      if c.memory.length < memoryCap c.character_class then c.memory.length + 1
      else c.memory.length := by
    by_cases hlt : c.memory.length < memoryCap c.character_class
    · rw [if_pos hlt]
      unfold memAfterAppend
      dsimp only
      rw [if_neg (by simp only [List.length_append, List.length_cons, List.length_nil]; omega)]
      simp
    · rw [if_neg hlt]
      unfold memAfterAppend
      dsimp only
      rw [if_pos (by simp only [List.length_append, List.length_cons, List.length_nil]; omega)]
      rw [List.length_tail]
      simp
  refine ⟨?_, hlen, ?_, ?_⟩
  · obtain ⟨st1, heq, _, _, _, hf⟩ :=
      charAddMemory_ok st cid ea er (memoryCap c.character_class) now c hc hrow hfk
    refine ⟨st1, ?_, hf⟩
    simp only [characterAddMemory, hc]
    exact heq
  · intro hle
    rw [hlen]
    split
    · omega
    · exact hle
  · unfold memAfterAppend
    dsimp only
    split
    · exact List.tail_suffix _
    · exact List.suffix_refl _

/-- C5, witness for the amended theorem at a concrete input. -/
theorem C5_witness :
    (characterAddMemory 9 stC5 8 "a" "r").map (fun s => (findChar s 8).map (fun c => c.memory)) =
      .ok (some (memAfterAppend memC5 "a" "r" 3 9)) := by
  obtain ⟨⟨st1, heq, hf⟩, _, _, _⟩ := C5_amended 9 stC5 8 "a" "r"
    { baseChar with id := 8, memory := memC5 } (by decide) (by decide) (by decide)
  simp only [heq, Except.map]
  rw [hf]
  rfl

/-- C6, counterexample: area 1 stores TWO one-time triggers that both
match the character_enters event.  After the event, the FIRST matched
one-time trigger is still stored: each removal writes
`originalTriggers.filter(t !== trigger)`, so the second write re-includes
the first trigger.  The claim requires every matched one-time trigger to
be removed. -/
theorem C6_counterexample :
    (characterMove stC6 9 1).map (fun p => (findArea p.1 1).map (fun a => a.triggers)) =
        .ok (some [trigC6A]) ∧
      trigC6A.one_time = true ∧
      shouldTriggerFire trigC6A "character_enters" { character_id := some 9 } = true := by
  refine ⟨by decide, by decide, by decide⟩

/-- C6 (amended): after executeTriggers completes, the stored trigger list
equals the original list minus ONLY the LAST matched one-time trigger
(every earlier one-time removal is overwritten, because each write filters
the original list read before the loop); when no matched trigger is
one-time the list is unchanged.  Structural inequality in the filter
matches the JS reference inequality for duplicate-free trigger lists. -/
theorem C6_amended (st : WorldState) (areaId : Nat) (evType : String) (ev : EventData)
    (ar : Area) (hA : findArea st areaId = some ar) :
    (findArea (executeTriggers st areaId evType ev) areaId).map (fun a => a.triggers) =
      match ((ar.triggers.filter (fun t => shouldTriggerFire t evType ev)).filter
              (fun t => t.one_time)).getLast? with
      | none => some ar.triggers
      | some t => some (ar.triggers.filter (fun t2 => decide (t2 ≠ t))) :=
  executeTriggers_final_triggers st areaId evType ev ar hA

/-- C6, witness for the amended theorem at a concrete input: on stC6 the
final stored list is exactly the original minus the LAST matched one-time
trigger, i.e. [trigC6A]. -/
theorem C6_witness :
    (findArea (executeTriggers stC6 1 "character_enters" { character_id := some 9 }) 1).map
      (fun a => a.triggers) = some [trigC6A] :=
  (C6_amended stC6 1 "character_enters" { character_id := some 9 }
    { baseArea with triggers := [trigC6A, trigC6B] } (by decide)).trans (by decide)

/-- C8: trigger execution is non-reentrant.  (a) The trace of triggers
whose reactions run during one executeTriggers event equals the matches of
the area's ORIGINAL trigger list against that event alone — the matched
set is collected before any reaction executes, so no state change made by
a reaction can fire an additional trigger within the same event.  (b) No
reaction ever touches any area's trigger list (reactions mutate only
items, exits, description and temperature, and the reaction interpreter
has no event channel), so a reaction cannot even install or satisfy a
trigger for the current event. -/
theorem C8_confirmed (st : WorldState) (areaId : Nat) (evType : String) (ev : EventData) :
    ((executeTriggersT st areaId evType ev).2 =
      match findArea st areaId with
      | none => []
      | some a => a.triggers.filter (fun t => shouldTriggerFire t evType ev)) ∧
    (∀ (st2 : WorldState) (aid2 : Nat) (rs : List Reaction) (ev2 : EventData),
      (executeReactions st2 aid2 rs ev2).areas.map (fun a => a.triggers) =
        st2.areas.map (fun a => a.triggers)) :=
  ⟨executeTriggersT_snd st areaId evType ev,
   fun st2 aid2 rs ev2 => executeReactions_areas_triggers st2 aid2 rs ev2⟩

/-- C10: with the calling character's current_area_id null AND the item's
current_area_id null (it is held by character 2), the area-equality check
passes (null equals null) and the pickup SUCCEEDS: item 7 is reassigned to
character 1 at "left hand", and no item_picked_up trigger fires (the fired
trace is empty). -/
theorem C10_confirmed :
    ((findChar stC10 1).map (fun c => c.current_area_id) = some none) ∧
    ((findItem stC10 7).map (fun i => (i.current_area_id, i.held_by_character_id)) =
      some (none, some 2)) ∧
    ((itemPickup 5 stC10 1 7 "left hand").map
      (fun p => (p.2, (findItem p.1 7).map
        (fun i => (i.current_area_id, i.held_by_character_id, i.held_location)))) =
      .ok ([], some (none, some 1, some "left hand"))) := by
  refine ⟨by decide, by decide, by decide⟩

/-- C9, counterexample: two successive claim("p", 3) calls by the same
player both succeed, yet afterwards character 3 has TWO live sessions
(nothing removes or reuses the first one) — refuting the at-most-one-
session invariant the claim asserts. -/
theorem C9_counterexample :
    ((claimCharacter stC9 [] "p" 3 "t1" 0).bind
        (fun r => claimCharacter r.1 r.2.1 "p" 3 "t2" 1)).map
      (fun r => ((sessionsForChar r.2.1 3).length,
        (sessionsForChar r.2.1 3).map (fun q => q.2.playerId),
        (findChar r.1 3).map (fun c => c.owner_id))) =
      .ok (2, ["p", "p"], some (some "p")) := by
  decide

/-- C9 (amended): claim is idempotent on OWNERSHIP for the same player but
accumulates sessions: starting from an empty store with the character
unowned or already owned by p, two claims with distinct tokens both
succeed, owner_id ends as p, and the store holds exactly the two sessions
— both carrying player p, so the owner_id/player_id half of the invariant
holds while at-most-one-session does not. -/
theorem C9_amended (st : WorldState) (p : String) (cid : Nat) (t1 t2 : String) (n1 n2 : Nat)
    (c : Character) (hc : findChar st cid = some c) (hrow : charRowOk c)
    (hfk : charFkOk st c = true) (howner : c.owner_id = none ∨ c.owner_id = some p)
    (ht : (t1 == t2) = false) :
    ((claimCharacter st [] p cid t1 n1).bind
        (fun r => claimCharacter r.1 r.2.1 p cid t2 n2)).map
      (fun r => ((findChar r.1 cid).map (fun x => x.owner_id), r.2.1)) =
    .ok (some (some p), [(t1, ⟨p, cid, n1, n1⟩), (t2, ⟨p, cid, n2, n2⟩)]) := by
  have hcond1 : (strTruthy c.owner_id && !(c.owner_id == some p)) = false := by
    rcases howner with h | h <;> rw [h]
    · rfl
    · simp
  have hrow1 : charRowOk (applyCharUpdate c { owner_id := some (some p) }) := hrow
  have hfk1 : charFkOk st (applyCharUpdate c { owner_id := some (some p) }) = true := hfk
  obtain ⟨st1, heq1, ha1, hi1, hn1x, hf1⟩ :=
    dbUpdateCharacter_ok st cid { owner_id := some (some p) } c hc hrow1 hfk1
  have hclaim1 : claimCharacter st [] p cid t1 n1 =
      .ok (st1, [(t1, ⟨p, cid, n1, n1⟩)], t1) := by
    simp only [claimCharacter, hc, hcond1, Bool.false_eq_true, if_false, heq1]
    rfl
  have hcond2 : (strTruthy (applyCharUpdate c { owner_id := some (some p) }).owner_id &&
      !((applyCharUpdate c { owner_id := some (some p) }).owner_id == some p)) = false := by
    show (strTruthy (some p) && !((some p : Option String) == some p)) = false
    simp
  have hrow2 : charRowOk (applyCharUpdate (applyCharUpdate c { owner_id := some (some p) })
      { owner_id := some (some p) }) := hrow
  have hfk2 : charFkOk st1 (applyCharUpdate (applyCharUpdate c { owner_id := some (some p) })
      { owner_id := some (some p) }) = true := by
    rw [charFkOk_eq_of_areas ha1]
    exact hfk
  obtain ⟨st2, heq2, ha2, hi2, hn2x, hf2⟩ :=
    dbUpdateCharacter_ok st1 cid { owner_id := some (some p) }
      (applyCharUpdate c { owner_id := some (some p) }) hf1 hrow2 hfk2
  have hclaim2 : claimCharacter st1 [(t1, ⟨p, cid, n1, n1⟩)] p cid t2 n2 =
      .ok (st2, [(t1, ⟨p, cid, n1, n1⟩), (t2, ⟨p, cid, n2, n2⟩)], t2) := by
    simp only [claimCharacter, hf1, hcond2, Bool.false_eq_true, if_false, heq2]
    simp only [createSession, storeSet, List.any_cons, List.any_nil, ht, Bool.or_false,
      Bool.false_eq_true, if_false]
    rfl
  rw [hclaim1]
  show ((claimCharacter st1 [(t1, ⟨p, cid, n1, n1⟩)] p cid t2 n2)).map
    (fun r => ((findChar r.1 cid).map (fun x => x.owner_id), r.2.1)) = _
  rw [hclaim2]
  simp only [Except.map]
  rw [hf2]
  rfl

/-- C9, witness for the amended theorem at a concrete input. -/
theorem C9_witness :
    ((claimCharacter stC9 [] "q" 3 "u1" 5).bind
        (fun r => claimCharacter r.1 r.2.1 "q" 3 "u2" 6)).map
      (fun r => ((findChar r.1 3).map (fun x => x.owner_id), r.2.1)) =
    .ok (some (some "q"), [("u1", ⟨"q", 3, 5, 5⟩), ("u2", ⟨"q", 3, 6, 6⟩)]) :=
  C9_amended stC9 "q" 3 "u1" "u2" 5 6 { baseChar with id := 3 }
    (by decide) (by decide) (by decide) (Or.inl rfl) (by decide)

theorem bnot_eq_true {b : Bool} (h : (!b) = true) : b = false := by
  cases b
  · rfl
  · cases h

theorem bnot_eq_false {b : Bool} (h : (!b) = false) : b = true := by
  cases b
  · cases h
  · rfl

theorem band_true {a b : Bool} (h : (a && b) = true) : a = true ∧ b = true := by
  cases a <;> cases b <;> simp_all

theorem band_false {a b : Bool} (h : (a && b) = false) : a = false ∨ b = false := by
  cases a <;> cases b <;> simp_all

/-- C7, counterexample: the object condition carries BOTH keywords and a
character_id; the event is spoken by a DIFFERENT character (id 2 ≠ 1) but
contains the keyword, and shouldTriggerFire returns true — the keyword
branch returns immediately without consulting character_id, while the
claim's conjunction requires the match to fail. -/
theorem C7_counterexample :
    shouldTriggerFire trigC7 "character_speech" evC7 = true ∧
      ¬ claimObjMatches "character_speech" (some ["sesame"]) (some 1) none
        "character_speech" evC7 := by
  constructor
  · decide
  · decide

/-- C7 (amended): the object-condition match is equivalent to: the truthy
type field must equal the event type, AND — for a character_speech event
with keywords present — the keyword test ALONE decides (character_id and
item_id are never consulted); only for other events, or without keywords,
do the truthy character_id / item_id equality tests apply. -/
theorem C7_amended (ty : Option String) (kws : Option (List String)) (cid iid : Option Nat)
    (reactions : List Reaction) (ot : Bool) (evType : String) (ev : EventData) :
    shouldTriggerFire
        { condition := Cond.obj ty kws cid iid
          reactions := reactions
          one_time := ot } evType ev = true ↔
      amendedObjMatches ty kws cid iid evType ev := by
  unfold shouldTriggerFire amendedObjMatches
  dsimp only
  by_cases hA : (strTruthy ty && !(ty.getD "" == evType)) = true
  · rw [if_pos hA]
    obtain ⟨hty, hne⟩ := band_true hA
    constructor
    · intro h
      exact absurd h Bool.false_ne_true
    · rintro ⟨h1, -⟩
      have he := h1 hty
      have hx : (ty.getD "" == evType) = false := bnot_eq_true hne
      rw [he] at hx
      simp at hx
  · have hA0 : (strTruthy ty && !(ty.getD "" == evType)) = false := Bool.eq_false_iff.mpr hA
    rw [if_neg hA]
    have hc1 : strTruthy ty = true → ty.getD "" = evType := by
      intro hty
      rcases band_false hA0 with h | h
      · rw [hty] at h
        cases h
      · exact beq_iff_eq.mp (bnot_eq_false h)
    rw [and_iff_right hc1]
    by_cases hB : (evType == "character_speech" && kws.isSome) = true
    · rw [if_pos hB]
      obtain ⟨hsp, hkw⟩ := band_true hB
      have hspP : evType = "character_speech" := beq_iff_eq.mp hsp
      rw [if_pos (show evType = "character_speech" ∧ kws.isSome = true from ⟨hspP, hkw⟩)]
      exact List.any_eq_true
    · have hB0 : (evType == "character_speech" && kws.isSome) = false := Bool.eq_false_iff.mpr hB
      rw [if_neg hB]
      have hBP : ¬(evType = "character_speech" ∧ kws.isSome = true) := by
        rintro ⟨h1, h2⟩
        rcases band_false hB0 with h | h
        · rw [h1] at h
          simp at h
        · rw [h2] at h
          cases h
      rw [if_neg hBP]
      by_cases hC : (natTruthy cid && !(cid == ev.character_id)) = true
      · rw [if_pos hC]
        obtain ⟨hcid, hne⟩ := band_true hC
        constructor
        · intro h
          exact absurd h Bool.false_ne_true
        · rintro ⟨h1, -⟩
          have heq := h1 hcid
          have hx : (cid == ev.character_id) = false := bnot_eq_true hne
          rw [heq] at hx
          simp at hx
      · have hC0 : (natTruthy cid && !(cid == ev.character_id)) = false := Bool.eq_false_iff.mpr hC
        rw [if_neg hC]
        have hc' : natTruthy cid = true → cid = ev.character_id := by
          intro h
          rcases band_false hC0 with hx | hx
          · rw [h] at hx
            cases hx
          · exact beq_iff_eq.mp (bnot_eq_false hx)
        by_cases hD : (natTruthy iid && !(iid == ev.item_id)) = true
        · rw [if_pos hD]
          obtain ⟨hiid, hne⟩ := band_true hD
          constructor
          · intro h
            exact absurd h Bool.false_ne_true
          · rintro ⟨-, h2⟩
            have heq := h2 hiid
            have hx : (iid == ev.item_id) = false := bnot_eq_true hne
            rw [heq] at hx
            simp at hx
        · have hD0 : (natTruthy iid && !(iid == ev.item_id)) = false := Bool.eq_false_iff.mpr hD
          rw [if_neg hD]
          have hd' : natTruthy iid = true → iid = ev.item_id := by
            intro h
            rcases band_false hD0 with hx | hx
            · rw [h] at hx
              cases hx
            · exact beq_iff_eq.mp (bnot_eq_false hx)
          exact iff_of_true rfl ⟨hc', hd'⟩
